import Mathlib

/-!
Shallow embedding of the pyorthanc resource-caching core
(`src/pyorthanc/_resources/study.py` and the request helpers of
`src/pyorthanc/async_client.py`).

Python objects become Lean structures; attribute mutation becomes explicit
state passing; every client call is recorded in an explicit call log, so
"number of transport fetches" is the length of the log.  JSON payloads are
modelled by a small `Json` inductive; the transport is an oracle giving the
decoded response of the n-th `get_studies_id` call, so that a server whose
state changes between calls is just an oracle that is not constant.
-/

/-- Decoded JSON-like payloads exchanged with the Orthanc server. -/
inductive Json where
  | null : Json
  | str : String → Json
  | num : Int → Json
  | bool : Bool → Json
  | arr : List Json → Json
  | obj : List (String × Json) → Json

/-- Python `d[k]` on a decoded JSON dictionary: `some` the value when the key
is present on an object, `none` otherwise (Python would raise `KeyError`). -/
def Json.get? : Json → String → Option Json
  | .obj fields, k => fields.lookup k
  | _, _ => none

/-- Read a JSON array of strings (the shape of `'Series'` and `'Labels'`). -/
def Json.asStrList? : Json → Option (List String)
  | .arr xs => xs.mapM (fun j => match j with | .str s => some s | _ => none)
  | _ => none

/-- The entry `info['Series']` decoded as a list of child identifiers. -/
def Json.seriesIds? (j : Json) : Option (List String) :=
  (j.get? "Series").bind Json.asStrList?

/-- One call issued to the Orthanc client by a resource object. -/
inductive ClientCall where
  | getStudiesId : String → ClientCall
  | postStudiesIdAnonymize : String → Json → ClientCall
  | putStudiesIdLabelsLabel : String → String → ClientCall
  | deleteStudiesIdLabelsLabel : String → String → ClientCall

def ClientCall.isGetStudiesId : ClientCall → Bool
  | .getStudiesId _ => true
  | _ => false

/-- The chronological log of client calls issued so far. -/
abbrev Log := List ClientCall

/-- Number of `get_studies_id` fetches recorded in the log. -/
def Log.fetches (log : Log) : Nat :=
  (log.filter ClientCall.isGetStudiesId).length

/-- The transport boundary (`self.client`), as an oracle: the decoded
response of the n-th `get_studies_id` call, and the outcome of a
`post_studies_id_anonymize` call (`Except.error ()` models an
`httpx.ReadTimeout` raised by the transport). -/
structure Client where
  get_studies_id_response : Nat → Json
  post_anonymize_response : Except Unit Json

/-- Python exceptions surfaced by the embedded operations. -/
inductive PyError where
  | keyError : String → PyError
  | tagDoesNotExist : String → PyError
  | readTimeout : String → PyError
deriving DecidableEq, Repr

/-- Leaf resource node (`Instance`): id, lock flag and cached attributes. -/
structure Instance where
  id_ : String
  lock : Bool
  _information : Option Json

/-- The `Series` resource node: cached attributes and cached child instances
(`None` until materialized, per `Resource.__init__`). -/
structure Series where
  id_ : String
  lock : Bool
  _information : Option Json
  _child_resources : Option (List Instance)

/-- The `Study` resource node: cached attributes and cached child series. -/
structure Study where
  id_ : String
  lock : Bool
  _information : Option Json
  _child_resources : Option (List Series)

/-- From `Study.get_main_information` (study.py lines 19-34): under `lock`,
fetch once into `self._information` and afterwards serve the stored value;
otherwise always fetch afresh.  Returns the value, the updated object state
and the updated call log. -/
def Study.get_main_information (client : Client) (s : Study) (log : Log) :
    Json × Study × Log :=
  if s.lock then
    match s._information with
    | none =>
        let info := client.get_studies_id_response log.fetches
        (info, { s with _information := some info },
         log.concat (ClientCall.getStudiesId s.id_))
    | some info => (info, s, log)
  else
    (client.get_studies_id_response log.fetches, s,
     log.concat (ClientCall.getStudiesId s.id_))

/-- Construct `Series(i, self.client, self.lock)` for each listed child
identifier: a brand-new child node, caches unset, with the given lock flag. -/
def mkSeries (lock : Bool) (ids : List String) : List Series :=
  ids.map (fun i =>
    { id_ := i, lock := lock, _information := none, _child_resources := none })

/-- From `Study.series` (study.py lines 85-97): under `lock`, materialize the
child list once from `get_main_information()['Series']` and afterwards
serve the cached sequence; otherwise re-list the child ids and build fresh
`Series` objects on every access.  `KeyError` on a missing or malformed
`'Series'` entry is surfaced as an error, after the fetch already
happened. -/
def Study.series (client : Client) (s : Study) (log : Log) :
    Except PyError (List Series) × Study × Log :=
  if s.lock then
    match s._child_resources with
    | none =>
        let r := Study.get_main_information client s log
        match Json.seriesIds? r.1 with
        | none => (Except.error (PyError.keyError "Series"), r.2.1, r.2.2)
        | some ids =>
            let children := mkSeries s.lock ids
            (Except.ok children,
             { r.2.1 with _child_resources := some children }, r.2.2)
    | some children => (Except.ok children, s, log)
  else
    let r := Study.get_main_information client s log
    match Json.seriesIds? r.1 with
    | none => (Except.error (PyError.keyError "Series"), r.2.1, r.2.2)
    | some ids => (Except.ok (mkSeries s.lock ids), r.2.1, r.2.2)

/-- Overwrite the k-th entry of a list through a function, leaving the
rest untouched. -/
def listModify (k : Nat) (f : Series → Series) : List Series → List Series
  | [] => []
  | c :: cs =>
      match k with
      | 0 => f c :: cs
      | k + 1 => c :: listModify k f cs

/-- Mutating a child node obtained from the cached child list of a locked
study: Python lists hold references, so updating the child updates the
corresponding entry of the parent's `_child_resources` in place. -/
def Study.mutateChild (s : Study) (k : Nat) (f : Series → Series) : Study :=
  { s with _child_resources := s._child_resources.map (listModify k f) }

/-- The study with `self._information` set to the given payload. -/
def Study.withInformation (s : Study) (j : Json) : Study :=
  { s with _information := some j }

/-- The study with `self._child_resources` set to the given children. -/
def Study.withChildren (s : Study) (cs : List Series) : Study :=
  { s with _child_resources := some cs }

/-- The state of a locked study, both caches unset, after its first
`series` access: the first response is stored as its attribute cache and
the children built from `ids` are stored as its child cache. -/
def Study.afterFirstSeries (client : Client) (s : Study) (log : Log)
    (ids : List String) : Study :=
  (s.withInformation (client.get_studies_id_response log.fetches)).withChildren
    (mkSeries true ids)

/-- From `Study.labels` (study.py lines 127-129):
`self.get_main_information()['Labels']`. -/
def Study.labels (client : Client) (s : Study) (log : Log) :
    Except PyError (List String) × Study × Log :=
  let r := Study.get_main_information client s log
  match (r.1.get? "Labels").bind Json.asStrList? with
  | none => (Except.error (PyError.keyError "Labels"), r.2.1, r.2.2)
  | some ls => (Except.ok ls, r.2.1, r.2.2)

/-- From `Study.add_label` (study.py lines 131-132): one PUT to the client,
nothing else. -/
def Study.add_label (s : Study) (log : Log) (label : String) : Study × Log :=
  (s, log.concat (ClientCall.putStudiesIdLabelsLabel s.id_ label))

/-- From `Study.remove_label` (study.py lines 134-135): one DELETE to the
client, nothing else. -/
def Study.remove_label (s : Study) (log : Log) (label : String) : Study × Log :=
  (s, log.concat (ClientCall.deleteStudiesIdLabelsLabel s.id_ label))

/-- Modelled from the spec: `Series.remove_empty_instances` lives in
series.py, which is not under src/.  Per spec §4.2 pruning "operates purely
on the cached child list (never triggers a fetch)" and each cached child
series is asked "to prune its own empty cached instance list": when the
cached instance list is unset this is a no-op, and when it is set the empty
entries are dropped — instances are leaf nodes carrying no cached child
list of their own, so no entry is empty and a set list is kept as is. -/
def Series.remove_empty_instances (se : Series) : Series :=
  match se._child_resources with
  | none => se
  | some instances => { se with _child_resources := some instances }

/-- Python `series._child_resources != []` (study.py line 326): `None`
differs from `[]`, and a list differs from `[]` iff it is non-empty. -/
def Series.childListKept (se : Series) : Bool :=
  match se._child_resources with
  | none => true
  | some instances => !instances.isEmpty

/-- From `Study.remove_empty_series` (study.py lines 318-326): return at once
when the cached child list was never materialized; otherwise ask every
cached series to prune its cached instances, then keep exactly the series
whose cached child list is not `[]`.  No client call is made. -/
def Study.remove_empty_series (s : Study) (log : Log) : Study × Log :=
  match s._child_resources with
  | none => (s, log)
  | some children =>
      let children := children.map Series.remove_empty_instances
      let kept := children.filter Series.childListKept
      ({ s with _child_resources := some kept }, log)

/-- Modelled from the spec: `Resource._get_main_dicom_tag_value` lives in
resource.py, which is not under src/.  Per spec §4.1, tag accessors "derive
a scalar from `get_main_information()`'s nested tag dictionary" and fail
with `TagDoesNotExistError` when the tag is absent from the dictionary. -/
def Study._get_main_dicom_tag_value (client : Client) (s : Study) (log : Log)
    (tag : String) : Except PyError Json × Study × Log :=
  let r := Study.get_main_information client s log
  match (r.1.get? "MainDicomTags").bind (fun d => d.get? tag) with
  | none => (Except.error (PyError.tagDoesNotExist tag), r.2.1, r.2.2)
  | some v => (Except.ok v, r.2.1, r.2.2)

/-- The string payload of a JSON value, when it is a string. -/
def Json.asStr? : Json → Option String
  | .str s => some s
  | _ => none

/-- A wall-clock timestamp with second precision (the `datetime` values
built by the date accessors). -/
structure DicomDateTime where
  year : Nat
  month : Nat
  day : Nat
  hour : Nat
  minute : Nat
  second : Nat
deriving DecidableEq, Repr

/-- Value of a non-empty all-digit character block. -/
def digitsVal? (cs : List Char) : Option Nat :=
  if cs.isEmpty then none
  else if cs.all Char.isDigit then
    some (cs.foldl (fun a c => a * 10 + (c.toNat - 48)) 0)
  else none

/-- Parse the `YYYYMMDD` prefix of a DICOM date string, with the month and
day ranges `datetime` would accept. -/
def parseDicomDate (s : String) : Option (Nat × Nat × Nat) :=
  let cs := s.toList
  if cs.length < 8 then none
  else
    match digitsVal? (cs.take 4), digitsVal? ((cs.drop 4).take 2),
        digitsVal? ((cs.drop 6).take 2) with
    | some y, some m, some d =>
        if 1 ≤ m ∧ m ≤ 12 ∧ 1 ≤ d ∧ d ≤ 31 then some (y, m, d) else none
    | _, _, _ => none

/-- Parse the `HHMMSS` prefix of a DICOM time string, with the ranges
`datetime` would accept. -/
def parseDicomTime (s : String) : Option (Nat × Nat × Nat) :=
  let cs := s.toList
  if cs.length < 6 then none
  else
    match digitsVal? (cs.take 2), digitsVal? ((cs.drop 2).take 2),
        digitsVal? ((cs.drop 4).take 2) with
    | some hh, some mm, some ss =>
        if hh ≤ 23 ∧ mm ≤ 59 ∧ ss ≤ 59 then some (hh, mm, ss) else none
    | _, _, _ => none

/-- Modelled from the spec: `util.make_datetime_from_dicom_date` lives in
util.py, which is not under src/.  Per spec §4.1 the date accessors
"combine a date field and an optional time field into a single timestamp;
when the time field is absent ... default to midnight". -/
def make_datetime_from_dicom_date (date : String) (time : Option String) :
    Option DicomDateTime :=
  match parseDicomDate date with
  | none => none
  | some (y, m, d) =>
      match time.bind parseDicomTime with
      | some (hh, mm, ss) => some ⟨y, m, d, hh, mm, ss⟩
      | none => some ⟨y, m, d, 0, 0, 0⟩

/-- From `Study.date` (study.py lines 46-63): read `StudyDate`, read `StudyTime`
catching `TagDoesNotExistError`, and combine them with
`make_datetime_from_dicom_date`. -/
def Study.date (client : Client) (s : Study) (log : Log) :
    Except PyError (Option DicomDateTime) × Study × Log :=
  match Study._get_main_dicom_tag_value client s log "StudyDate" with
  | (Except.error e, s1, l1) => (Except.error e, s1, l1)
  | (Except.ok dv, s1, l1) =>
      match Study._get_main_dicom_tag_value client s1 l1 "StudyTime" with
      | (Except.error _, s2, l2) =>
          (Except.ok ((dv.asStr?).bind
            (fun ds => make_datetime_from_dicom_date ds none)), s2, l2)
      | (Except.ok tv, s2, l2) =>
          (Except.ok ((dv.asStr?).bind
            (fun ds => make_datetime_from_dicom_date ds tv.asStr?)), s2, l2)

/-- Modelled from the spec: the `Resource` constructor's default for the
`lock` flag lives in resource.py, which is not under src/.  The spec fixes
`lock` at construction (§3) with always-refetch as the policy when the
caller does not opt into locking. -/
def Resource.lockDefault : Bool := false

/-- The `data` dictionary built by `Study.anonymize` (study.py lines
188-204): `None` arguments become empty collections, `Asynchronous` is
false, and `DicomVersion` is added only when given. -/
def Study.anonymizeData (remove : Option (List String))
    (replace : Option (List (String × Json))) (keep : Option (List String))
    (force : Bool) (keep_private_tags : Bool) (keep_source : Bool)
    (priority : Int) (permissive : Bool) (dicom_version : Option String) :
    Json :=
  let remove := remove.getD []
  let replace := replace.getD []
  let keep := keep.getD []
  let base : List (String × Json) :=
    [("Asynchronous", Json.bool false),
     ("Remove", Json.arr (remove.map Json.str)),
     ("Replace", Json.obj replace),
     ("Keep", Json.arr (keep.map Json.str)),
     ("Force", Json.bool force),
     ("KeepPrivateTags", Json.bool keep_private_tags),
     ("KeepSource", Json.bool keep_source),
     ("Priority", Json.num priority),
     ("Permissive", Json.bool permissive)]
  match dicom_version with
  | none => Json.obj base
  | some v => Json.obj (base.concat ("DicomVersion", Json.str v))

/-- From `Study.anonymize` (study.py lines 137-214): POST the anonymization
request; when the transport raises `ReadTimeout`, re-raise a `ReadTimeout`
with a guidance message; on success, wrap the `'ID'` field of the response
in `Study(anonymous_study['ID'], self.client)` — constructed without a
`lock` argument.  The resource identifiers handed out by the server are
strings, so a response whose `'ID'` entry is missing is surfaced as a
`KeyError`. -/
def Study.anonymize (client : Client) (s : Study) (log : Log)
    (remove : Option (List String)) (replace : Option (List (String × Json)))
    (keep : Option (List String)) (force : Bool) (keep_private_tags : Bool)
    (keep_source : Bool) (priority : Int) (permissive : Bool)
    (dicom_version : Option String) : Except PyError Study × Study × Log :=
  let data := Study.anonymizeData remove replace keep force keep_private_tags
    keep_source priority permissive dicom_version
  let log := log.concat (ClientCall.postStudiesIdAnonymize s.id_ data)
  match client.post_anonymize_response with
  | Except.error _ =>
      (Except.error (PyError.readTimeout
        "Study anonymization is too long to process. Use `.anonymize_as_job` or increase client.timeout."),
       s, log)
  | Except.ok anonymous_study =>
      match (anonymous_study.get? "ID").bind Json.asStr? with
      | some i =>
          (Except.ok
            { id_ := i, lock := Resource.lockDefault,
              _information := none, _child_resources := none }, s, log)
      | none => (Except.error (PyError.keyError "ID"), s, log)

/-- An httpx response at the transport boundary: status code, content-type
header, and its decoded projections (`.json()`, `.text`, `.content`). -/
structure HttpResponse where
  status_code : Nat
  content_type : String
  json_body : Json
  text_body : String
  content_body : List Nat

/-- The decoded payload returned by the request helpers of
async_client.py. -/
inductive DecodedPayload where
  | json : Json → DecodedPayload
  | text : String → DecodedPayload
  | binary : List Nat → DecodedPayload
  | raw : HttpResponse → DecodedPayload

/-- The error `httpx.HTTPError` raised on a non-2xx status, carrying the status code
and response text that the source interpolates into the message. -/
structure HTTPError where
  status_code : Nat
  content : String

/-- Whether `pat` occurs as a contiguous run inside the second list. -/
def charsContain (pat : List Char) : List Char → Bool
  | [] => pat.isEmpty
  | c :: rest => pat.isPrefixOf (c :: rest) || charsContain pat rest

/-- Python `pat in s` on strings: contiguous-substring containment. -/
def String.containsSub (s pat : String) : Bool :=
  charsContain pat.toList s.toList

/-- The response-handling block shared verbatim by `AsyncOrthanc._get`,
`AsyncOrthanc._delete`, `AsyncOrthanc._post` and `AsyncOrthanc._put`
(async_client.py): raw passthrough when `return_raw_response`; on a 2xx
status, decode by content type — JSON when the header contains
`application/json`, text when it contains `text/plain`, raw bytes
otherwise; on any other status, raise `httpx.HTTPError` built from the
status code and response text. -/
def AsyncOrthanc.handle_response (return_raw_response : Bool)
    (response : HttpResponse) : Except HTTPError DecodedPayload :=
  if return_raw_response then Except.ok (DecodedPayload.raw response)
  else if 200 ≤ response.status_code ∧ response.status_code < 300 then
    if response.content_type.containsSub "application/json" then
      Except.ok (DecodedPayload.json response.json_body)
    else if response.content_type.containsSub "text/plain" then
      Except.ok (DecodedPayload.text response.text_body)
    else Except.ok (DecodedPayload.binary response.content_body)
  else Except.error ⟨response.status_code, response.text_body⟩

/-- From `AsyncOrthanc._get` (async_client.py lines 58-99): perform exactly one
transport request and hand its response to the shared handling block.
`transport` gives the response of the n-th request and `n` counts the
requests performed so far. -/
def AsyncOrthanc._get (return_raw_response : Bool)
    (transport : Nat → HttpResponse) (n : Nat) :
    Except HTTPError DecodedPayload × Nat :=
  (AsyncOrthanc.handle_response return_raw_response (transport n), n + 1)

/-- From `AsyncOrthanc._post` (async_client.py lines 144-199): perform exactly
one transport request and hand its response to the shared handling
block. -/
def AsyncOrthanc._post (return_raw_response : Bool)
    (transport : Nat → HttpResponse) (n : Nat) :
    Except HTTPError DecodedPayload × Nat :=
  (AsyncOrthanc.handle_response return_raw_response (transport n), n + 1)

/-- A transport giving a JSON 200, a plain-text 200, a binary 200 and then
a 404 response. -/
def transportSeq : Nat → HttpResponse
  | 0 =>
      { status_code := 200, content_type := "application/json; charset=utf-8",
        json_body := Json.obj [("ok", Json.bool true)], text_body := "",
        content_body := [] }
  | 1 =>
      { status_code := 200, content_type := "text/plain", json_body := Json.null,
        text_body := "pong", content_body := [] }
  | 2 =>
      { status_code := 200, content_type := "application/zip",
        json_body := Json.null, text_body := "", content_body := [80, 75] }
  | _ =>
      { status_code := 404, content_type := "text/plain", json_body := Json.null,
        text_body := "not found", content_body := [] }

/-- The guidance message raised by `Study.anonymize` on a transport
read-timeout (study.py lines 209-212). -/
def anonymizeTimeoutMsg : String :=
  "Study anonymization is too long to process. Use `.anonymize_as_job` or increase client.timeout."

/-- A transport whose study payload changes between the first and the
second fetch: main tags, child list and labels all differ. -/
def clientA : Client :=
  { get_studies_id_response := fun n =>
      if n = 0 then
        Json.obj
          [("MainDicomTags",
            Json.obj [("StudyDate", Json.str "20240115"),
                      ("StudyTime", Json.str "143000")]),
           ("Series", Json.arr [Json.str "se1", Json.str "se2"]),
           ("Labels", Json.arr [Json.str "alpha"])]
      else
        Json.obj
          [("MainDicomTags", Json.obj [("StudyDate", Json.str "20240116")]),
           ("Series", Json.arr [Json.str "se3"]),
           ("Labels", Json.arr [Json.str "beta"])],
    post_anonymize_response := Except.ok (Json.obj [("ID", Json.str "anon1")]) }

/-- A transport whose current study payload carries the label "server". -/
def clientLabels : Client :=
  { get_studies_id_response := fun _ => Json.obj [("Labels", Json.arr [Json.str "server"])],
    post_anonymize_response := Except.ok Json.null }

/-- A locked study whose attribute cache was populated before the server's
labels changed: the cache still carries the label "cached". -/
def studyCachedOldLabels : Study :=
  { id_ := "st1", lock := true, _information := some (Json.obj [("Labels", Json.arr [Json.str "cached"])]), _child_resources := none }

/-- The same study, but with its attribute cache holding the transport's
current payload. -/
def studyCachedNewLabels : Study :=
  { id_ := "st1", lock := true, _information := some (Json.obj [("Labels", Json.arr [Json.str "server"])]), _child_resources := none }

/-- A transport whose anonymization call times out. -/
def clientTimeout : Client :=
  { get_studies_id_response := fun _ => Json.null,
    post_anonymize_response := Except.error () }

/-- A freshly constructed locked study: both caches unset. -/
def studyLocked : Study :=
  { id_ := "st1", lock := true, _information := none, _child_resources := none }

/-- A freshly constructed unlocked study: both caches unset. -/
def studyUnlocked : Study :=
  { id_ := "st1", lock := false, _information := none, _child_resources := none }

/-- The locked study after its first `get_main_information()` call against
`clientA`: the first response is stored in the attribute cache. -/
def studyLockedFetched : Study :=
  { studyLocked with _information := some (clientA.get_studies_id_response 0) }

/-- Main information carrying a StudyDate but no StudyTime. -/
def infoDateOnly : Json :=
  Json.obj [("MainDicomTags", Json.obj [("StudyDate", Json.str "20240115")])]

/-- A locked study whose cached attributes hold only the date tag. -/
def studyDateOnly : Study :=
  { studyLocked with _information := some infoDateOnly }

/-- A cached instance node for the pruning fixtures. -/
def instX : Instance :=
  { id_ := "in1", lock := true, _information := none }

/-- A series whose instance list was loaded and found empty. -/
def seriesEmptyCache : Series :=
  { id_ := "seA", lock := true, _information := none, _child_resources := some [] }

/-- A series whose instances were never loaded. -/
def seriesUnloaded : Series :=
  { id_ := "seB", lock := true, _information := none, _child_resources := none }

/-- A series with one cached instance. -/
def seriesWithInstance : Series :=
  { id_ := "seC", lock := true, _information := none, _child_resources := some [instX] }

/-- A study whose cached child list holds the three series above. -/
def studyWithCachedSeries : Study :=
  { id_ := "st2", lock := true, _information := none,
    _child_resources := some [seriesEmptyCache, seriesUnloaded, seriesWithInstance] }

theorem Log.fetches_append_get (log : Log) (i : String) :
    Log.fetches (log ++ [ClientCall.getStudiesId i]) = log.fetches + 1 := by
  simp [Log.fetches, List.filter_append, ClientCall.isGetStudiesId]

theorem mem_mkSeries {c : Series} {lk : Bool} {ids : List String}
    (h : c ∈ mkSeries lk ids) :
    c.lock = lk ∧ c._information = none ∧ c._child_resources = none := by
  rcases List.mem_map.1 h with ⟨i, -, rfl⟩
  exact ⟨rfl, rfl, rfl⟩

/-- C1: for every Study constructed with `lock=true`, the first call to
`get_main_information()` performs exactly one transport fetch and stores
the result; every subsequent call (any transport behaviour, any log)
returns the stored value without issuing any client call. -/
theorem study_lock_get_main_information_cached
    (client : Client) (s : Study) (log : Log) (hlock : s.lock = true) :
    (s._information = none →
      Study.get_main_information client s log =
        (client.get_studies_id_response log.fetches,
         s.withInformation (client.get_studies_id_response log.fetches),
         log.concat (ClientCall.getStudiesId s.id_))) ∧
    (∀ (client' : Client) (log' : Log) (j : Json), s._information = some j →
      Study.get_main_information client' s log' = (j, s, log')) := by
  constructor
  · intro h
    simp [Study.get_main_information, Study.withInformation, hlock, h]
  · intro client' log' j h
    simp [Study.get_main_information, hlock, h]

theorem study_lock_get_main_information_cached_witness :
    Study.get_main_information clientA studyLocked [] =
      (clientA.get_studies_id_response 0, studyLockedFetched,
       [ClientCall.getStudiesId "st1"]) ∧
    Study.get_main_information clientA studyLockedFetched
      [ClientCall.getStudiesId "st1"] =
      (clientA.get_studies_id_response 0, studyLockedFetched,
       [ClientCall.getStudiesId "st1"]) := by
  refine ⟨?_, ?_⟩
  · exact (study_lock_get_main_information_cached clientA studyLocked [] rfl).1 rfl
  · exact (study_lock_get_main_information_cached clientA studyLockedFetched
      [ClientCall.getStudiesId "st1"] rfl).2 clientA
      [ClientCall.getStudiesId "st1"] (clientA.get_studies_id_response 0) rfl

/-- C3: for every Study constructed with `lock=false`, every call to
`get_main_information()` performs a fresh transport fetch, returns the
freshly decoded response of that fetch, and never writes the
cached-attributes field; a second call returns the (possibly changed)
next response. -/
theorem study_nolock_get_main_information_fresh
    (client : Client) (s : Study) (log : Log) (hlock : s.lock = false) :
    Study.get_main_information client s log =
      (client.get_studies_id_response log.fetches, s,
       log.concat (ClientCall.getStudiesId s.id_)) ∧
    (Study.get_main_information client s
        (log.concat (ClientCall.getStudiesId s.id_))).1 =
      client.get_studies_id_response (log.fetches + 1) := by
  constructor
  · simp [Study.get_main_information, hlock]
  · simp [Study.get_main_information, hlock, Log.fetches_append_get]

theorem study_nolock_get_main_information_fresh_witness :
    Study.get_main_information clientA studyUnlocked [] =
      (clientA.get_studies_id_response 0, studyUnlocked,
       [ClientCall.getStudiesId "st1"]) ∧
    (Study.get_main_information clientA studyUnlocked
        [ClientCall.getStudiesId "st1"]).1 =
      clientA.get_studies_id_response 1 := by
  refine ⟨?_, ?_⟩
  · exact (study_nolock_get_main_information_fresh clientA studyUnlocked [] rfl).1
  · exact (study_nolock_get_main_information_fresh clientA studyUnlocked [] rfl).2

/-- C2: under `lock=true` the first `series` access builds the child list
from the `'Series'` array of `get_main_information()` and caches it; every
later access returns the same cached sequence with the same child
identities, so a mutation of a child reached through the first returned
sequence is visible through the next access.  Under `lock=false` every
access re-fetches the child ids and returns brand-new `Series` objects
(caches unset), and the study itself stores nothing. -/
theorem study_series_identity_per_lock
    (client : Client) (s : Study) (log : Log) (ids ids2 : List String)
    (hinfo : s._information = none)
    (hchild : s._child_resources = none)
    (h1 : Json.seriesIds? (client.get_studies_id_response log.fetches) =
      some ids)
    (h2 : Json.seriesIds? (client.get_studies_id_response (log.fetches + 1)) =
      some ids2) :
    (s.lock = true →
      Study.series client s log =
        (Except.ok (mkSeries true ids),
         Study.afterFirstSeries client s log ids,
         log.concat (ClientCall.getStudiesId s.id_)) ∧
      (∀ l' : Log,
        Study.series client (Study.afterFirstSeries client s log ids) l' =
          (Except.ok (mkSeries true ids),
           Study.afterFirstSeries client s log ids, l')) ∧
      (∀ (k : Nat) (f : Series → Series) (l' : Log),
        Study.series client
            ((Study.afterFirstSeries client s log ids).mutateChild k f) l' =
          (Except.ok (listModify k f (mkSeries true ids)),
           (Study.afterFirstSeries client s log ids).mutateChild k f, l'))) ∧
    (s.lock = false →
      Study.series client s log =
        (Except.ok (mkSeries false ids), s,
         log.concat (ClientCall.getStudiesId s.id_)) ∧
      Study.series client s (log.concat (ClientCall.getStudiesId s.id_)) =
        (Except.ok (mkSeries false ids2), s,
         (log.concat (ClientCall.getStudiesId s.id_)).concat
           (ClientCall.getStudiesId s.id_)) ∧
      (∀ c ∈ mkSeries false ids2,
        c._information = none ∧ c._child_resources = none)) := by
  constructor
  · intro hlock
    refine ⟨?_, ?_, ?_⟩
    · simp [Study.series, Study.get_main_information, hlock, hinfo, hchild,
        h1, Study.afterFirstSeries, Study.withInformation, Study.withChildren]
    · intro l'
      simp [Study.series, hlock, Study.afterFirstSeries,
        Study.withInformation, Study.withChildren]
    · intro k f l'
      simp [Study.series, hlock, Study.afterFirstSeries, Study.mutateChild,
        Study.withInformation, Study.withChildren]
  · intro hlock
    refine ⟨?_, ?_, ?_⟩
    · simp [Study.series, Study.get_main_information, hlock, h1]
    · simp [Study.series, Study.get_main_information, hlock,
        Log.fetches_append_get, h2]
    · intro c hc
      exact ⟨(mem_mkSeries hc).2.1, (mem_mkSeries hc).2.2⟩

theorem study_series_identity_per_lock_witness :
    Study.series clientA studyLocked [] =
      (Except.ok (mkSeries true ["se1", "se2"]),
       Study.afterFirstSeries clientA studyLocked [] ["se1", "se2"],
       [ClientCall.getStudiesId "st1"]) ∧
    Study.series clientA studyUnlocked [] =
      (Except.ok (mkSeries false ["se1", "se2"]), studyUnlocked,
       [ClientCall.getStudiesId "st1"]) := by
  refine ⟨?_, ?_⟩
  · exact ((study_series_identity_per_lock clientA studyLocked []
      ["se1", "se2"] ["se3"] rfl rfl rfl rfl).1 rfl).1
  · exact ((study_series_identity_per_lock clientA studyUnlocked []
      ["se1", "se2"] ["se3"] rfl rfl rfl rfl).2 rfl).1

/-- C4: every child Series that the `series` accessor materializes — in
lock=false mode on every access, in lock=true mode on the access that
populates the empty child cache — is constructed with the parent's own
`lock` flag. -/
theorem study_series_lock_propagated
    (client : Client) (s : Study) (log : Log) (cs : List Series)
    (hmat : s._child_resources = none ∨ s.lock = false)
    (h : (Study.series client s log).1 = Except.ok cs) :
    ∀ c ∈ cs, c.lock = s.lock := by
  intro c hc
  rcases hids : Json.seriesIds? ((Study.get_main_information client s log).1)
    with _ | ids
  · cases hl : s.lock with
    | true =>
        rcases hmat with hchild | hfalse
        · simp [Study.series, hl, hchild, hids] at h
        · rw [hl] at hfalse
          exact absurd hfalse (by simp)
    | false =>
        simp [Study.series, hl, hids] at h
  · cases hl : s.lock with
    | true =>
        rcases hmat with hchild | hfalse
        · simp [Study.series, hl, hchild, hids] at h
          rw [← h] at hc
          exact (mem_mkSeries hc).1
        · rw [hl] at hfalse
          exact absurd hfalse (by simp)
    | false =>
        simp [Study.series, hl, hids] at h
        rw [← h] at hc
        exact (mem_mkSeries hc).1

theorem study_series_lock_propagated_witness :
    ({ id_ := "se1", lock := true, _information := none, _child_resources := none } : Series).lock = studyLocked.lock :=
  study_series_lock_propagated clientA studyLocked []
    (mkSeries true ["se1", "se2"]) (Or.inl rfl) (by rfl)
    ⟨"se1", true, none, none⟩ (by simp [mkSeries])

theorem Series.childListKept_iff (se : Series) :
    Series.childListKept se = true ↔ se._child_resources ≠ some [] := by
  unfold Series.childListKept
  cases h : se._child_resources with
  | none => simp
  | some xs => cases xs <;> simp

/-- C5: `remove_empty_series()` never issues a client call; on a study
whose child cache was never materialized it returns everything unchanged;
otherwise it asks each cached series to prune its own cached instance
list and then keeps exactly those series whose cached child list is not
`[]` — so a cached series whose own children were never loaded survives
untouched.  The study's identity, lock flag and attribute cache are left
as they were. -/
theorem study_remove_empty_series_cache_only (s : Study) (log : Log) :
    (Study.remove_empty_series s log).2 = log ∧
    (s._child_resources = none → Study.remove_empty_series s log = (s, log)) ∧
    (∀ children, s._child_resources = some children →
      (Study.remove_empty_series s log).1._child_resources =
        some ((children.map Series.remove_empty_instances).filter
          Series.childListKept) ∧
      (∀ se, se ∈ children.map Series.remove_empty_instances →
        (se ∈ (children.map Series.remove_empty_instances).filter
            Series.childListKept ↔ se._child_resources ≠ some [])) ∧
      (∀ se ∈ children, se._child_resources = none →
        se ∈ (children.map Series.remove_empty_instances).filter
          Series.childListKept)) ∧
    (Study.remove_empty_series s log).1.id_ = s.id_ ∧
    (Study.remove_empty_series s log).1.lock = s.lock ∧
    (Study.remove_empty_series s log).1._information = s._information := by
  refine ⟨?_, ?_, ?_, ?_, ?_, ?_⟩
  · cases hch : s._child_resources <;>
      simp [Study.remove_empty_series, hch]
  · intro hch
    simp [Study.remove_empty_series, hch]
  · intro children hch
    refine ⟨?_, ?_, ?_⟩
    · simp [Study.remove_empty_series, hch]
    · intro se hse
      simp [List.mem_filter, hse, Series.childListKept_iff]
    · intro se hse hnone
      refine List.mem_filter.2 ⟨List.mem_map.2 ⟨se, hse, ?_⟩, ?_⟩
      · simp [Series.remove_empty_instances, hnone]
      · simp [Series.childListKept, hnone]
  · cases hch : s._child_resources <;>
      simp [Study.remove_empty_series, hch]
  · cases hch : s._child_resources <;>
      simp [Study.remove_empty_series, hch]
  · cases hch : s._child_resources <;>
      simp [Study.remove_empty_series, hch]

theorem study_remove_empty_series_cache_only_witness :
    Study.remove_empty_series studyLocked [] = (studyLocked, []) ∧
    (Study.remove_empty_series studyWithCachedSeries []).1._child_resources =
      some [seriesUnloaded, seriesWithInstance] ∧
    (Study.remove_empty_series studyWithCachedSeries []).2 = [] := by
  refine ⟨?_, ?_, ?_⟩
  · exact (study_remove_empty_series_cache_only studyLocked []).2.1 rfl
  · exact ((study_remove_empty_series_cache_only studyWithCachedSeries []).2.2.1
      [seriesEmptyCache, seriesUnloaded, seriesWithInstance] rfl).1
  · exact (study_remove_empty_series_cache_only studyWithCachedSeries []).1

/-- C6: on a study whose main DICOM tags hold `StudyDate="20240115"` and
`StudyTime="143000"`, the `date` accessor yields 2024-01-15 14:30:00;
when `StudyTime` is absent (its lookup raising `TagDoesNotExistError`
internally), it yields the same date at midnight. -/
theorem study_date_combines_date_and_time
    (client : Client) (s : Study) (log : Log) (j md : Json)
    (hlock : s.lock = true) (hinfo : s._information = some j)
    (hmd : j.get? "MainDicomTags" = some md)
    (hdate : md.get? "StudyDate" = some (Json.str "20240115")) :
    (md.get? "StudyTime" = some (Json.str "143000") →
      Study.date client s log =
        (Except.ok (some ⟨2024, 1, 15, 14, 30, 0⟩), s, log)) ∧
    (md.get? "StudyTime" = none →
      Study.date client s log =
        (Except.ok (some ⟨2024, 1, 15, 0, 0, 0⟩), s, log)) := by
  constructor
  · intro ht
    simp [Study.date, Study._get_main_dicom_tag_value,
      Study.get_main_information, hlock, hinfo, hmd, hdate, ht, Json.asStr?]
    decide
  · intro ht
    simp [Study.date, Study._get_main_dicom_tag_value,
      Study.get_main_information, hlock, hinfo, hmd, hdate, ht, Json.asStr?]
    decide

theorem study_date_combines_date_and_time_witness :
    Study.date clientA studyLockedFetched [] =
      (Except.ok (some ⟨2024, 1, 15, 14, 30, 0⟩), studyLockedFetched, []) ∧
    Study.date clientA studyDateOnly [] =
      (Except.ok (some ⟨2024, 1, 15, 0, 0, 0⟩), studyDateOnly, []) := by
  refine ⟨?_, ?_⟩
  · exact (study_date_combines_date_and_time clientA studyLockedFetched []
      (clientA.get_studies_id_response 0)
      (Json.obj [("StudyDate", Json.str "20240115"),
        ("StudyTime", Json.str "143000")])
      rfl rfl rfl rfl).1 rfl
  · exact (study_date_combines_date_and_time clientA studyDateOnly []
      infoDateOnly
      (Json.obj [("StudyDate", Json.str "20240115")]) rfl rfl rfl rfl).2 rfl

/-- C7: a transport read-timeout during the synchronous anonymize call
makes `anonymize()` raise a read-timeout whose message references the
asynchronous variant `anonymize_as_job` and raising the client timeout;
a successful call returns a new Study wrapping the `'ID'` field of the
server's response. -/
theorem study_anonymize_timeout_guidance_and_result
    (client : Client) (s : Study) (log : Log)
    (remove : Option (List String)) (replace : Option (List (String × Json)))
    (keep : Option (List String)) (force keep_private_tags keep_source : Bool)
    (priority : Int) (permissive : Bool) (dicom_version : Option String) :
    (client.post_anonymize_response = Except.error () →
      (Study.anonymize client s log remove replace keep force
          keep_private_tags keep_source priority permissive dicom_version).1 =
        Except.error (PyError.readTimeout anonymizeTimeoutMsg) ∧
      anonymizeTimeoutMsg.containsSub "anonymize_as_job" = true ∧
      anonymizeTimeoutMsg.containsSub "client.timeout" = true) ∧
    (∀ (j : Json) (i : String), client.post_anonymize_response = Except.ok j →
      (j.get? "ID").bind Json.asStr? = some i →
      (Study.anonymize client s log remove replace keep force
          keep_private_tags keep_source priority permissive dicom_version).1 =
        Except.ok ⟨i, Resource.lockDefault, none, none⟩) := by
  constructor
  · intro h
    refine ⟨?_, ?_, ?_⟩
    · simp [Study.anonymize, h, anonymizeTimeoutMsg]
    · decide
    · decide
  · intro j i hresp hid
    simp [Study.anonymize, hresp, hid]

theorem study_anonymize_timeout_guidance_and_result_witness :
    (Study.anonymize clientTimeout studyLocked [] none none none false false
        true 0 false none).1 =
      Except.error (PyError.readTimeout anonymizeTimeoutMsg) ∧
    (Study.anonymize clientA studyLocked [] none none none false false
        true 0 false none).1 =
      Except.ok ⟨"anon1", Resource.lockDefault, none, none⟩ := by
  refine ⟨?_, ?_⟩
  · exact ((study_anonymize_timeout_guidance_and_result clientTimeout
      studyLocked [] none none none false false true 0 false none).1 rfl).1
  · exact (study_anonymize_timeout_guidance_and_result clientA studyLocked []
      none none none false false true 0 false none).2
      (Json.obj [("ID", Json.str "anon1")]) "anon1" rfl rfl

/-- C10: a successful synchronous `anonymize()` constructs the returned
Study without passing the parent's lock flag, so whatever the parent's
mode, the result carries the constructor's default lock mode and a
lock=true parent's caching policy is not inherited. -/
theorem study_anonymize_default_lock
    (client : Client) (s : Study) (log : Log)
    (remove : Option (List String)) (replace : Option (List (String × Json)))
    (keep : Option (List String)) (force keep_private_tags keep_source : Bool)
    (priority : Int) (permissive : Bool) (dicom_version : Option String)
    (j : Json) (i : String)
    (hresp : client.post_anonymize_response = Except.ok j)
    (hid : (j.get? "ID").bind Json.asStr? = some i) :
    (Study.anonymize client s log remove replace keep force keep_private_tags
        keep_source priority permissive dicom_version).1 =
      Except.ok ⟨i, Resource.lockDefault, none, none⟩ ∧
    Resource.lockDefault = false ∧
    (s.lock = true → ∀ t : Study,
      (Study.anonymize client s log remove replace keep force
          keep_private_tags keep_source priority permissive dicom_version).1 =
        Except.ok t →
      t.lock ≠ s.lock) := by
  have h1 : (Study.anonymize client s log remove replace keep force
      keep_private_tags keep_source priority permissive dicom_version).1 =
        Except.ok ⟨i, Resource.lockDefault, none, none⟩ := by
    simp [Study.anonymize, hresp, hid]
  refine ⟨h1, rfl, ?_⟩
  intro hs t ht
  rw [h1] at ht
  have h2 := Except.ok.inj ht
  rw [← h2, hs]
  simp [Resource.lockDefault]

theorem study_anonymize_default_lock_witness :
    (Study.anonymize clientA studyLocked [] none none none false false
        true 0 false none).1 =
      Except.ok ⟨"anon1", Resource.lockDefault, none, none⟩ ∧
    (⟨"anon1", Resource.lockDefault, none, none⟩ : Study).lock ≠
      studyLocked.lock := by
  refine ⟨?_, ?_⟩
  · exact (study_anonymize_default_lock clientA studyLocked [] none none none
      false false true 0 false none (Json.obj [("ID", Json.str "anon1")])
      "anon1" rfl rfl).1
  · exact (study_anonymize_default_lock clientA studyLocked [] none none none
      false false true 0 false none (Json.obj [("ID", Json.str "anon1")])
      "anon1" rfl rfl).2.2 rfl ⟨"anon1", Resource.lockDefault, none, none⟩
      (study_anonymize_default_lock clientA studyLocked [] none none none
      false false true 0 false none (Json.obj [("ID", Json.str "anon1")])
      "anon1" rfl rfl).1

/-- C8: with raw passthrough off, each request helper performs exactly one
transport call and both helpers share the handling block; a 2xx response
is decoded by content type — structured JSON when the content-type header
contains application/json, text when it contains text/plain, raw bytes
otherwise — and a non-2xx response raises the transport error built from
its status code and text, propagated unchanged with no retry. -/
theorem client_request_decode_and_propagate
    (transport : Nat → HttpResponse) (n : Nat) :
    (AsyncOrthanc._get false transport n).2 = n + 1 ∧
    (AsyncOrthanc._post false transport n).2 = n + 1 ∧
    (AsyncOrthanc._post false transport n).1 =
      (AsyncOrthanc._get false transport n).1 ∧
    (200 ≤ (transport n).status_code ∧ (transport n).status_code < 300 →
      ((transport n).content_type.containsSub "application/json" = true →
        (AsyncOrthanc._get false transport n).1 =
          Except.ok (DecodedPayload.json (transport n).json_body)) ∧
      ((transport n).content_type.containsSub "application/json" = false →
        (transport n).content_type.containsSub "text/plain" = true →
        (AsyncOrthanc._get false transport n).1 =
          Except.ok (DecodedPayload.text (transport n).text_body)) ∧
      ((transport n).content_type.containsSub "application/json" = false →
        (transport n).content_type.containsSub "text/plain" = false →
        (AsyncOrthanc._get false transport n).1 =
          Except.ok (DecodedPayload.binary (transport n).content_body))) ∧
    (¬(200 ≤ (transport n).status_code ∧ (transport n).status_code < 300) →
      (AsyncOrthanc._get false transport n).1 =
        Except.error ⟨(transport n).status_code, (transport n).text_body⟩) := by
  refine ⟨rfl, rfl, rfl, ?_, ?_⟩
  · intro h2
    refine ⟨?_, ?_, ?_⟩
    · intro hj
      simp [AsyncOrthanc._get, AsyncOrthanc.handle_response, h2, hj]
    · intro hj ht
      simp [AsyncOrthanc._get, AsyncOrthanc.handle_response, h2, hj, ht]
    · intro hj ht
      simp [AsyncOrthanc._get, AsyncOrthanc.handle_response, h2, hj, ht]
  · intro h2
    simp [AsyncOrthanc._get, AsyncOrthanc.handle_response, h2]

theorem client_request_decode_and_propagate_witness :
    (AsyncOrthanc._get false transportSeq 0).1 =
      Except.ok (DecodedPayload.json (Json.obj [("ok", Json.bool true)])) ∧
    (AsyncOrthanc._get false transportSeq 1).1 =
      Except.ok (DecodedPayload.text "pong") ∧
    (AsyncOrthanc._get false transportSeq 2).1 =
      Except.ok (DecodedPayload.binary [80, 75]) ∧
    (AsyncOrthanc._get false transportSeq 3).1 =
      Except.error ⟨404, "not found"⟩ ∧
    (AsyncOrthanc._get false transportSeq 0).2 = 1 ∧
    (AsyncOrthanc._post false transportSeq 3).1 =
      (AsyncOrthanc._get false transportSeq 3).1 := by
  refine ⟨?_, ?_, ?_, ?_, ?_, ?_⟩
  · exact ((client_request_decode_and_propagate transportSeq 0).2.2.2.1
      (by decide)).1 (by decide)
  · exact ((client_request_decode_and_propagate transportSeq 1).2.2.2.1
      (by decide)).2.1 (by decide) (by decide)
  · exact ((client_request_decode_and_propagate transportSeq 2).2.2.2.1
      (by decide)).2.2 (by decide) (by decide)
  · exact (client_request_decode_and_propagate transportSeq 3).2.2.2.2
      (by decide)
  · exact (client_request_decode_and_propagate transportSeq 0).1
  · exact (client_request_decode_and_propagate transportSeq 3).2.2.1

/-- C9 counterexample: two studies identical except for their cached
attribute dictionaries, queried against the very same transport, return
different labels, and the call issues no client call at all — so the
labels read by the accessor are served from the cached attribute
dictionary rather than being independent of it. -/
theorem study_labels_not_independent_of_cache :
    studyCachedOldLabels.id_ = studyCachedNewLabels.id_ ∧
    studyCachedOldLabels.lock = studyCachedNewLabels.lock ∧
    studyCachedOldLabels._child_resources =
      studyCachedNewLabels._child_resources ∧
    (Study.labels clientLabels studyCachedOldLabels []).1 =
      Except.ok ["cached"] ∧
    (Study.labels clientLabels studyCachedNewLabels []).1 =
      Except.ok ["server"] ∧
    (Study.labels clientLabels studyCachedOldLabels []).1 ≠
      (Study.labels clientLabels studyCachedNewLabels []).1 ∧
    (Study.labels clientLabels studyCachedOldLabels []).2.2 = [] := by
  refine ⟨rfl, rfl, rfl, rfl, rfl, ?_, rfl⟩
  intro h
  have h1 : (Except.ok ["cached"] : Except PyError (List String)) =
      Except.ok ["server"] := h
  simp at h1

/-- C9 amended: the labels accessor reads through
`get_main_information()`, so a lock=true study with a populated attribute
cache serves its labels from the cached dictionary with no client call;
`add_label` and `remove_label` always issue exactly one client call each
and leave the study's state — attribute cache and child cache included —
unchanged. -/
theorem study_label_operations
    (client : Client) (s : Study) (log : Log) (label : String) :
    Study.add_label s log label =
      (s, log.concat (ClientCall.putStudiesIdLabelsLabel s.id_ label)) ∧
    Study.remove_label s log label =
      (s, log.concat (ClientCall.deleteStudiesIdLabelsLabel s.id_ label)) ∧
    (∀ (j : Json) (ls : List String), s.lock = true →
      s._information = some j →
      (j.get? "Labels").bind Json.asStrList? = some ls →
      Study.labels client s log = (Except.ok ls, s, log)) := by
  refine ⟨rfl, rfl, ?_⟩
  intro j ls hlock hinfo hls
  simp [Study.labels, Study.get_main_information, hlock, hinfo, hls]

theorem study_label_operations_witness :
    Study.add_label studyLocked [] "tag1" =
      (studyLocked, [ClientCall.putStudiesIdLabelsLabel "st1" "tag1"]) ∧
    Study.remove_label studyLocked [] "tag1" =
      (studyLocked, [ClientCall.deleteStudiesIdLabelsLabel "st1" "tag1"]) ∧
    Study.labels clientLabels studyCachedOldLabels [] =
      (Except.ok ["cached"], studyCachedOldLabels, []) := by
  refine ⟨?_, ?_, ?_⟩
  · exact (study_label_operations clientLabels studyLocked [] "tag1").1
  · exact (study_label_operations clientLabels studyLocked [] "tag1").2.1
  · exact (study_label_operations clientLabels studyCachedOldLabels []
      "tag1").2.2 (Json.obj [("Labels", Json.arr [Json.str "cached"])])
      ["cached"] rfl rfl rfl
